import Mathlib

/-!
# Verification of the vehicle listing normalization & filter pipeline

Shallow embedding of the normalizer/filter subsystem of `src/app.py`
(`parse_number`, `filter_listings`, the inline normalization in the
`/api/vehicle-details` and `/api/search` handlers, and
`save_vehicle_to_db`), together with theorems settling the spec claims.

Python strings are modelled as Lean `String` (worked on via `List Char`);
Python `int(...)` string conversion is modelled over ASCII digits with
optional sign and underscore separators; Python exceptions are modelled
with `Except`.
-/

namespace AvoccadoApp

/-! ## Python string primitives -/

/-- `s.replace("km", "")`: remove every (non-overlapping, left-to-right)
occurrence of the two-character pattern `km`. -/
def removeKm : List Char → List Char
  | 'k' :: 'm' :: rest => removeKm rest
  | c :: rest => c :: removeKm rest
  | [] => []

/-- `s.replace("EUR", "")`: remove every occurrence of `EUR`. -/
def removeEUR : List Char → List Char
  | 'E' :: 'U' :: 'R' :: rest => removeEUR rest
  | c :: rest => c :: removeEUR rest
  | [] => []

/-- `s.replace(c, "")` for a one-character pattern. -/
def removeChar (ch : Char) (s : List Char) : List Char :=
  s.filter (fun c => c ≠ ch)

/-- Characters stripped by Python `str.strip()` (the whitespace characters
that can still occur in our inputs; exotic Unicode space code points are
not modelled). -/
def pyIsSpace (c : Char) : Bool :=
  c = ' ' || c = '\t' || c = '\n' || c = '\r' ||
  c = '\x0b' || c = '\x0c' || c = '\u0085' || c = ' '

/-- Python `str.strip()`. -/
def pyStrip (s : List Char) : List Char :=
  ((s.dropWhile pyIsSpace).reverse.dropWhile pyIsSpace).reverse

/-- Numeric value of a list of ASCII digits. -/
def digitsVal (cs : List Char) : Nat :=
  cs.foldl (fun a c => a * 10 + (c.toNat - 48)) 0

/-- After the first digit, Python `int()` accepts further digits with
single underscores allowed between digits. -/
def intTail : List Char → Bool
  | [] => true
  | '_' :: rest =>
    match rest with
    | c :: rest2 => c.isDigit && intTail rest2
    | [] => false
  | c :: rest => c.isDigit && intTail rest

/-- A digit body matching Python's `digit (digit | _ digit)*`. -/
def intBody : List Char → Bool
  | c :: rest => c.isDigit && intTail rest
  | [] => false

/-- Python `int(s)` on a string: strip whitespace, optional sign, then a
digit body (ASCII digits; underscore group separators allowed between
digits). Returns `none` where Python raises `ValueError`. -/
def pyInt (s : List Char) : Option Int :=
  let t := pyStrip s
  match t with
  | '+' :: rest =>
    if intBody rest then some (Int.ofNat (digitsVal (rest.filter (fun c => c ≠ '_')))) else none
  | '-' :: rest =>
    if intBody rest then some (-(Int.ofNat (digitsVal (rest.filter (fun c => c ≠ '_'))))) else none
  | _ =>
    if intBody t then some (Int.ofNat (digitsVal (t.filter (fun c => c ≠ '_')))) else none

/-! ## `parse_number` (src/app.py, `parse_number`) -/

/-- `parse_number` from `src/app.py`: parse a number string that may
contain European formatting (commas, dots, spaces, unit suffixes).
Returns `none` where the Python function returns `None`. -/
def parse_number (value_str : String) : Option Int :=
  if value_str = "" || value_str = "N/A" then none
  else
    let s := value_str.data
    -- s.replace('km','').replace('€','').replace('EUR','')
    let s := removeEUR (removeChar '€' (removeKm s))
    -- s.replace(' ','').replace('\xa0','').replace(' ','')
    let s := removeChar ' ' (removeChar ' ' s)
    -- s.replace(',','').replace('.','')
    let s := removeChar '.' (removeChar ',' s)
    -- s.strip()
    let s := pyStrip s
    -- try: return int(s) if s else None
    if s = [] then none
    else
      match pyInt s with
      | some n => some n
      | none =>
        -- except ValueError: digits fallback
        let digits := s.filter Char.isDigit
        if digits = [] then none else some (Int.ofNat (digitsVal digits))

/-! ## `filter_listings` (src/app.py, `filter_listings`) -/

/-- A listing as seen by `filter_listings`: a mapping whose relevant keys
are `year`, `mileage`, `price` (string fields produced by the search
normalization); an absent key is `none` (`item.get(k, '')` yields `''`). -/
structure Listing where
  title : Option String := none
  year : Option String := none
  mileage : Option String := none
  price : Option String := none
  url : Option String := none
deriving DecidableEq, Repr

/-- Search criteria as seen by `filter_listings`: the optional integer
bounds under keys `modelYear` (min year), `mileage` (max mileage) and
`price` (max price); `none` is an absent key. -/
structure Criteria where
  modelYear : Option Int := none
  mileage : Option Int := none
  price : Option Int := none
deriving DecidableEq, Repr

/-- `if criteria.get(k):` on an integer-valued criteria entry: the bound
is applied only when the key is present and its value is truthy
(non-zero). -/
def boundVal : Option Int → Option Int
  | some v => if v = 0 then none else some v
  | none => none

/-- The suffix of `cs` after its last `/` (Python `s.split('/')[-1]`). -/
def afterLastSlash (cs : List Char) : List Char :=
  (cs.reverse.takeWhile (fun c => c ≠ '/')).reverse

/-- The year-parsing block of `filter_listings`: empty or `N/A` year
gives no year; otherwise the (suffix after the last `/` of the) string is
converted with `int(...)`, whose `ValueError` propagates as `.error`. -/
def parseYear (year_str : String) : Except Unit (Option Int) :=
  if year_str = "" || year_str = "N/A" then Except.ok none
  else
    let cs := year_str.data
    let t := if cs.contains '/' then afterLastSlash cs else cs
    match pyInt t with
    | some n => Except.ok (some n)
    | none => Except.error ()

/-- The body of the per-item `try:` block of `filter_listings`: decide
whether the item is kept (`.ok true`), filtered out (`.ok false`), or
whether an exception is raised (`.error`). -/
def try_filter_item (c : Criteria) (item : Listing) : Except Unit Bool :=
  match parseYear (item.year.getD "") with
  | Except.error e => Except.error e
  | Except.ok year =>
    let mileage := parse_number (item.mileage.getD "")
    let price := parse_number (item.price.getD "")
    -- if criteria.get('modelYear'): ... if year and year < min_year: continue
    let exclYear : Bool :=
      match boundVal c.modelYear, year with
      | some min_year, some y => y ≠ 0 && y < min_year
      | _, _ => false
    -- if criteria.get('mileage'): ... if mileage is not None and mileage > max_mileage
    let exclMileage : Bool :=
      match boundVal c.mileage, mileage with
      | some max_mileage, some m => m > max_mileage
      | _, _ => false
    -- if criteria.get('price'): ... if price is not None and price > max_price
    let exclPrice : Bool :=
      match boundVal c.price, price with
      | some max_price, some p => p > max_price
      | _, _ => false
    Except.ok (!(exclYear || exclMileage || exclPrice))

/-- Per-item decision of `filter_listings`, with the `except` clause
applied: an exception while evaluating an item keeps the item. -/
def keepItem (c : Criteria) (item : Listing) : Bool :=
  match try_filter_item c item with
  | Except.ok b => b
  | Except.error _ => true

/-- `filter_listings(listings, criteria)` from `src/app.py`. -/
def filter_listings (listings : List Listing) (c : Criteria) : List Listing :=
  listings.filter (keepItem c)

/-! ## Raw record values and the inline normalization
(src/app.py, `/api/vehicle-details` handler and `/api/search` handler) -/

/-- A JSON-like Python value as found in a raw scraped record: a string,
an integer, or a mapping. -/
inductive PyVal where
  | str : String → PyVal
  | intV : Int → PyVal
  | dict : List (String × PyVal) → PyVal

/-- `d.get(k)` on a mapping (keys are unique in a Python dict). -/
def pyGet (d : List (String × PyVal)) (k : String) : Option PyVal :=
  (d.find? (fun p => p.1 = k)).map (fun p => p.2)

mutual
/-- Python `repr` of a value (string escaping inside `repr` of a string is
not modelled; no claim depends on it). -/
def pyRepr : PyVal → String
  | PyVal.str s => "'" ++ s ++ "'"
  | PyVal.intV n => toString n
  | PyVal.dict d => "\x7b" ++ pyReprEntries d ++ "\x7d"

/-- `repr` of the entries of a mapping. -/
def pyReprEntries : List (String × PyVal) → String
  | [] => ""
  | [(k, v)] => "'" ++ k ++ "': " ++ pyRepr v
  | (k, v) :: rest => "'" ++ k ++ "': " ++ pyRepr v ++ ", " ++ pyReprEntries rest
end

/-- Python `str(...)` of a value. -/
def pyStr : PyVal → String
  | PyVal.str s => s
  | PyVal.intV n => toString n
  | PyVal.dict d => pyRepr (PyVal.dict d)

/-- Python `v == 'N/A'` on a value. -/
def pvIsNA : PyVal → Bool
  | PyVal.str s => s = "N/A"
  | _ => false

/-- The canonical listing (`details` dict) built by the
`/api/vehicle-details` handler. `price`, `mileage` and `year` go through
`str(...)`; the other fields keep the raw value. -/
structure Details where
  title : PyVal
  price : String
  url : PyVal
  mileage : String
  year : String
  fuel : PyVal
  transmission : PyVal
  power : PyVal
  properties : List (String × PyVal)

/-- The normalization block of the `/api/vehicle-details` handler
(src/app.py lines 2249-2267): build the `details` dict from the scraped
`item`, with the request `url` as fallback for the `url` field. A
non-mapping `properties` value makes `properties.get(...)` raise
(`.error`), which the route handler turns into an error response. -/
def normalize (url : String) (item : List (String × PyVal)) : Except String Details :=
  -- price = item.get('price', 'N/A'); if isinstance(price, dict): price = price.get('amount', 'N/A')
  let price0 := (pyGet item "price").getD (PyVal.str "N/A")
  let price1 := match price0 with
    | PyVal.dict d => (pyGet d "amount").getD (PyVal.str "N/A")
    | v => v
  -- properties = item.get('properties', {})
  match (pyGet item "properties").getD (PyVal.dict []) with
  | PyVal.dict props =>
    -- mileage = properties.get('milage', item.get('mileage', 'N/A'))
    let mileage := (pyGet props "milage").getD ((pyGet item "mileage").getD (PyVal.str "N/A"))
    -- year = properties.get('firstRegistration', item.get('year', 'N/A'))
    let year := (pyGet props "firstRegistration").getD ((pyGet item "year").getD (PyVal.str "N/A"))
    Except.ok
      { title := (pyGet item "title").getD (PyVal.str "N/A")
        price := if pvIsNA price1 then "N/A" else pyStr price1
        url := (pyGet item "url").getD (PyVal.str url)
        mileage := if pvIsNA mileage then "N/A" else pyStr mileage
        year := if pvIsNA year then "N/A" else pyStr year
        fuel := (pyGet item "fuel").getD (PyVal.str "N/A")
        transmission := (pyGet item "transmission").getD (PyVal.str "N/A")
        power := (pyGet item "power").getD (PyVal.str "N/A")
        properties := props }
  | _ => Except.error "AttributeError"

/-- The normalization loop body of the `/api/search` handler
(src/app.py lines 2596-2611): builds a five-field listing dict; there is
no top-level fallback for mileage/year and `title` falls back to the
`name` key and then to the literal `'Vehicle'`. -/
def normalizeSearch (item : List (String × PyVal)) : Except String Listing :=
  let price0 := (pyGet item "price").getD (PyVal.str "N/A")
  let price1 := match price0 with
    | PyVal.dict d => (pyGet d "amount").getD (PyVal.str "N/A")
    | v => v
  match (pyGet item "properties").getD (PyVal.dict []) with
  | PyVal.dict props =>
    let mileage := (pyGet props "milage").getD (PyVal.str "N/A")
    let year := (pyGet props "firstRegistration").getD (PyVal.str "N/A")
    Except.ok
      { title := some (pyStr ((pyGet item "title").getD
          ((pyGet item "name").getD (PyVal.str "Vehicle"))))
        price := some (if pvIsNA price1 then "N/A" else pyStr price1)
        mileage := some (if pvIsNA mileage then "N/A" else pyStr mileage)
        year := some (if pvIsNA year then "N/A" else pyStr year)
        url := some (pyStr ((pyGet item "url").getD
          ((pyGet item "link").getD (PyVal.str "")))) }
  | _ => Except.error "AttributeError"

/-! ## `save_vehicle_to_db` (src/app.py, `save_vehicle_to_db`) -/

/-- The `details` payload passed to `save_vehicle_to_db`
(`vehicle_data.get(k)` defaults to `None`); the serialized
`properties` JSON string is abstracted as an already-serialized
`Option String`. -/
structure VehicleData where
  title : Option String := none
  price : Option String := none
  mileage : Option String := none
  year : Option String := none
  fuel : Option String := none
  transmission : Option String := none
  power : Option String := none
  url : Option String := none
  properties : Option String := none
deriving DecidableEq, Repr

/-- One row of the `vehicles` table (schema: `title TEXT NOT NULL`,
`url TEXT UNIQUE`, sequential integer primary key). -/
structure VehicleRow where
  id : Nat
  title : Option String
  price : Option String
  mileage : Option String
  year : Option String
  fuel : Option String
  transmission : Option String
  power : Option String
  url : String
  properties : Option String
deriving DecidableEq, Repr

/-- The `vehicles` table with its id sequence. -/
structure VehiclesTable where
  rows : List VehicleRow
  nextId : Nat
deriving DecidableEq, Repr

/-- `save_vehicle_to_db(vehicle_data)` from `src/app.py`: when the url is
non-empty and a row with that url exists, return its id without
inserting; otherwise insert a fresh row — where a `NOT NULL` (`title`)
or `UNIQUE` (`url`) constraint violation raises, is caught, and `None`
is returned with the uncommitted insert rolled back. -/
def save_vehicle_to_db (db : VehiclesTable) (v : VehicleData) : VehiclesTable × Option Nat :=
  -- url = vehicle_data.get('url', ''), written out at each use site
  match (if v.url.getD "" ≠ "" then db.rows.find? (fun r => r.url = v.url.getD "") else none) with
  | some r => (db, some r.id)
  | none =>
    if v.title = none || db.rows.any (fun r => r.url = v.url.getD "") then
      (db, none)
    else
      ({ rows := db.rows ++ [{ id := db.nextId, title := v.title, price := v.price,
                               mileage := v.mileage, year := v.year, fuel := v.fuel,
                               transmission := v.transmission, power := v.power,
                               url := v.url.getD "", properties := v.properties }],
         nextId := db.nextId + 1 },
       some db.nextId)

/-! ## Helper lemmas -/

/-- With no bounds set, the per-item decision always keeps the item. -/
theorem keepItem_no_bounds (item : Listing) :
    keepItem { modelYear := none, mileage := none, price := none } item = true := by
  unfold keepItem try_filter_item
  cases hpy : parseYear (item.year.getD "") with
  | error e => rfl
  | ok yr => simp [boundVal]

end AvoccadoApp

namespace AvoccadoApp

/-! ## Claims -/

/-- C2: `parse_number` returns `none` on the empty string and on `"N/A"`,
and parses the spec's formatted examples to the exact integers. -/
theorem parse_number_spec_examples :
    parse_number "" = none ∧
    parse_number "N/A" = none ∧
    parse_number "110.000 km" = some 110000 ∧
    parse_number "45,000" = some 45000 ∧
    parse_number "1.234.567" = some 1234567 ∧
    parse_number "€ 25.000" = some 25000 := by
  refine ⟨?_, ?_, ?_, ?_, ?_, ?_⟩ <;> decide

/-- C5: filtering with criteria in which no bound is set returns the
input list of listings unchanged (identity law). -/
theorem filter_listings_identity (listings : List Listing) :
    filter_listings listings { modelYear := none, mileage := none, price := none } = listings := by
  unfold filter_listings
  exact List.filter_eq_self.2 fun item _ => keepItem_no_bounds item

/-- C6: the output of `filter_listings` is never longer than its input
and is an order-preserving subsequence of it (stable filter). -/
theorem filter_listings_sublist (listings : List Listing) (c : Criteria) :
    (filter_listings listings c).length ≤ listings.length ∧
    List.Sublist (filter_listings listings c) listings := by
  exact ⟨List.length_filter_le _ _, List.filter_sublist _⟩

/-- C10: a listing whose year field parses to the integer 0 is treated as
having no year: the min-year check tests the parsed year for truthiness,
so the `modelYear` bound never affects the decision for such a listing. -/
theorem year_zero_fail_open (c : Criteria) (item : Listing)
    (h : parseYear (item.year.getD "") = Except.ok (some 0)) :
    keepItem c item =
      keepItem { modelYear := none, mileage := c.mileage, price := c.price } item := by
  obtain ⟨my, mi, pr⟩ := c
  unfold keepItem try_filter_item
  rw [h]
  cases my with
  | none => simp [boundVal]
  | some v =>
    by_cases hv : v = 0 <;> simp [boundVal, hv]

/-- C10 witness: a concrete listing with year `"0"` is kept with a
`modelYear` bound of 2000, exactly as with no `modelYear` bound. -/
theorem year_zero_fail_open_witness :
    keepItem { modelYear := some 2000, mileage := none, price := none } { year := some "0" } =
      keepItem { modelYear := none, mileage := none, price := none } { year := some "0" } :=
  year_zero_fail_open { modelYear := some 2000, mileage := none, price := none }
    { year := some "0" } rfl

/-- C1 counterexample: a listing whose mileage is unparsable, under
criteria that set the max-mileage bound, is nonetheless dropped by
`filter_listings` — the price bound still applies (49999 > 5000), so the
claim as universally stated is false. -/
theorem fail_open_counterexample :
    parse_number "xyz" = none ∧
    filter_listings [{ mileage := some "xyz", price := some "49999" }]
      { modelYear := none, mileage := some 1000, price := some 5000 } = [] := by
  refine ⟨by decide, by decide⟩

/-- C1 amended: fail-open holds bound-by-bound: an unparsable mileage
(resp. price) field makes the corresponding max bound inert — the
per-item decision is the same as with that bound removed (so with the
corresponding bound as the only bound set, the listing is retained). -/
theorem parse_failure_fail_open (c : Criteria) (item : Listing) :
    (parse_number (item.mileage.getD "") = none →
      keepItem c item =
        keepItem { modelYear := c.modelYear, mileage := none, price := c.price } item) ∧
    (parse_number (item.price.getD "") = none →
      keepItem c item =
        keepItem { modelYear := c.modelYear, mileage := c.mileage, price := none } item) := by
  obtain ⟨my, mi, pr⟩ := c
  constructor <;> intro h <;>
    unfold keepItem try_filter_item <;>
    cases hpy : parseYear (item.year.getD "") <;>
    simp [h, boundVal]

/-- C1 witness: with the corresponding bound as the only bound set, a
concrete listing with unparsable mileage (resp. price) is decided
exactly as with no bounds at all, i.e. kept. -/
theorem parse_failure_fail_open_witness :
    keepItem { modelYear := none, mileage := some 1000, price := none }
        { mileage := some "abc" } =
      keepItem { modelYear := none, mileage := none, price := none }
        { mileage := some "abc" } ∧
    keepItem { modelYear := none, mileage := none, price := some 1000 }
        { price := some "abc" } =
      keepItem { modelYear := none, mileage := none, price := none }
        { price := some "abc" } :=
  ⟨(parse_failure_fail_open { modelYear := none, mileage := some 1000, price := none }
      { mileage := some "abc" }).1 (by decide),
   (parse_failure_fail_open { modelYear := none, mileage := none, price := some 1000 }
      { price := some "abc" }).2 (by decide)⟩

/-- C8: an exception raised while evaluating a single listing (the only
in-model source is the year `int(...)` conversion) is caught per item:
the listing is kept and appears in the filter output; `parse_number`
itself is total and never propagates an exception (it returns an
integer or `none` by its type). -/
theorem filter_catches_exceptions (c : Criteria) (item : Listing) (l : List Listing)
    (e : Unit) (hmem : item ∈ l)
    (herr : try_filter_item c item = Except.error e) :
    keepItem c item = true ∧ item ∈ filter_listings l c := by
  have hkeep : keepItem c item = true := by
    unfold keepItem
    rw [herr]
  exact ⟨hkeep, List.mem_filter.2 ⟨hmem, hkeep⟩⟩

/-- C8 witness: a listing whose year field `"20ab"` makes `int(...)`
raise is kept and retained in the output, even under a price bound its
price would violate. -/
theorem filter_catches_exceptions_witness :
    keepItem { modelYear := none, mileage := none, price := some 5000 }
        { year := some "20ab", price := some "99999" } = true ∧
    { year := some "20ab", price := some "99999" } ∈
      filter_listings [{ year := some "20ab", price := some "99999" }]
        { modelYear := none, mileage := none, price := some 5000 } :=
  filter_catches_exceptions
    { modelYear := none, mileage := none, price := some 5000 }
    { year := some "20ab", price := some "99999" }
    [{ year := some "20ab", price := some "99999" }] ()
    (List.mem_singleton.2 rfl) rfl

/-- C4 counterexample: a listing whose year parses to 0 with a min-year
bound 2000 present strictly violates the bound (0 < 2000), yet
`filter_listings` retains it — so "excluded if and only if ... the value
strictly violates the bound" is false as stated. -/
theorem filter_excludes_iff_counterexample :
    parseYear "0" = Except.ok (some 0) ∧
    (0 : Int) < 2000 ∧
    filter_listings [{ year := some "0" }]
        { modelYear := some 2000, mileage := none, price := none } =
      [{ year := some "0" }] := by
  refine ⟨rfl, by decide, by decide⟩

/-- C4 amended: `filter_listings` excludes a listing iff its year parse
does not raise, and some bound is present with a truthy (non-zero)
value, the corresponding field parses, and the parsed value strictly
violates the bound — where a parsed year of 0 is treated as absent and
never triggers the min-year bound. -/
theorem filter_excludes_iff (c : Criteria) (item : Listing) :
    keepItem c item = false ↔
      ∃ yr, parseYear (item.year.getD "") = Except.ok yr ∧
        ((∃ b, boundVal c.modelYear = some b ∧
            ∃ y, yr = some y ∧ y ≠ 0 ∧ y < b) ∨
         (∃ b, boundVal c.mileage = some b ∧
            ∃ m, parse_number (item.mileage.getD "") = some m ∧ b < m) ∨
         (∃ b, boundVal c.price = some b ∧
            ∃ p, parse_number (item.price.getD "") = some p ∧ b < p)) := by
  unfold keepItem try_filter_item
  cases hpy : parseYear (item.year.getD "") with
  | error e => simp
  | ok yr =>
    cases yr with
    | none =>
      cases hm : parse_number (item.mileage.getD "") <;>
      cases hp : parse_number (item.price.getD "") <;>
      cases hb2 : boundVal c.mileage <;>
      cases hb3 : boundVal c.price <;>
        (simp [hb2, hb3]; try omega)
    | some y =>
      cases hb1 : boundVal c.modelYear <;>
      cases hm : parse_number (item.mileage.getD "") <;>
      cases hp : parse_number (item.price.getD "") <;>
      cases hb2 : boundVal c.mileage <;>
      cases hb3 : boundVal c.price <;>
        (simp [hb1, hb2, hb3]; try omega)

/-- C3 counterexample: on the empty raw record the `url` field of the
canonical listing is populated with the request url, not with the
literal `"N/A"` — so "the literal string N/A is substituted for every
field absent from the source record" is false as stated. -/
theorem normalize_url_default_counterexample :
    (normalize "https://suchen.mobile.de/auto/1.html" []).map Details.url =
      Except.ok (PyVal.str "https://suchen.mobile.de/auto/1.html") ∧
    "https://suchen.mobile.de/auto/1.html" ≠ "N/A" := by
  refine ⟨rfl, by decide⟩

/-- C3 amended: for every raw record whose `properties` entry (when
present) is a mapping, `normalize` returns a canonical listing with
every field populated; `title`, `price`, `mileage`, `year`, `fuel`,
`transmission` and `power` default to the literal `"N/A"` when absent,
while an absent `url` defaults to the request url and absent
`properties` to the empty mapping. -/
theorem normalize_total_defaults (url : String) (item props : List (String × PyVal))
    (hprops : (pyGet item "properties").getD (PyVal.dict []) = PyVal.dict props) :
    ∃ d, normalize url item = Except.ok d ∧
      (pyGet item "title" = none → d.title = PyVal.str "N/A") ∧
      (pyGet item "price" = none → d.price = "N/A") ∧
      (pyGet props "milage" = none → pyGet item "mileage" = none → d.mileage = "N/A") ∧
      (pyGet props "firstRegistration" = none → pyGet item "year" = none → d.year = "N/A") ∧
      (pyGet item "fuel" = none → d.fuel = PyVal.str "N/A") ∧
      (pyGet item "transmission" = none → d.transmission = PyVal.str "N/A") ∧
      (pyGet item "power" = none → d.power = PyVal.str "N/A") ∧
      (pyGet item "url" = none → d.url = PyVal.str url) ∧
      d.properties = props := by
  unfold normalize
  rw [hprops]
  refine ⟨_, rfl, ?_, ?_, ?_, ?_, ?_, ?_, ?_, ?_, rfl⟩ <;> intro h
  all_goals first
    | (intro h2; simp [h, h2, pvIsNA])
    | simp [h, pvIsNA]

/-- C3 witness: on the empty record with request url `"https://u"`,
`normalize` succeeds with every default populated as amended. -/
theorem normalize_total_defaults_witness :
    ∃ d, normalize "https://u" [] = Except.ok d ∧
      (pyGet [] "title" = none → d.title = PyVal.str "N/A") ∧
      (pyGet [] "price" = none → d.price = "N/A") ∧
      (pyGet [] "milage" = none → pyGet [] "mileage" = none → d.mileage = "N/A") ∧
      (pyGet [] "firstRegistration" = none → pyGet [] "year" = none → d.year = "N/A") ∧
      (pyGet [] "fuel" = none → d.fuel = PyVal.str "N/A") ∧
      (pyGet [] "transmission" = none → d.transmission = PyVal.str "N/A") ∧
      (pyGet [] "power" = none → d.power = PyVal.str "N/A") ∧
      (pyGet [] "url" = none → d.url = PyVal.str "https://u") ∧
      d.properties = [] :=
  normalize_total_defaults "https://u" [] [] rfl

/-- C7: extraction precedence. In the `/api/vehicle-details`
normalization: a mapping-valued `price` contributes its `amount`
subfield, a plain `price` value is used as-is; a `milage` key in the
nested `properties` mapping determines the canonical mileage regardless
of any top-level `mileage` field, and likewise `firstRegistration`
determines the year. The `/api/search` normalization obeys the same
rules. -/
theorem normalize_extraction_precedence (url : String) (item props : List (String × PyVal))
    (hprops : (pyGet item "properties").getD (PyVal.dict []) = PyVal.dict props) :
    ∃ d, normalize url item = Except.ok d ∧
      (∀ pd a, pyGet item "price" = some (PyVal.dict pd) → pyGet pd "amount" = some a →
        d.price = if pvIsNA a then "N/A" else pyStr a) ∧
      (∀ s, pyGet item "price" = some (PyVal.str s) → d.price = s) ∧
      (∀ mv, pyGet props "milage" = some mv →
        d.mileage = if pvIsNA mv then "N/A" else pyStr mv) ∧
      (∀ yv, pyGet props "firstRegistration" = some yv →
        d.year = if pvIsNA yv then "N/A" else pyStr yv) ∧
      (∀ item2 props2, (pyGet item2 "properties").getD (PyVal.dict []) = PyVal.dict props2 →
        ∃ l, normalizeSearch item2 = Except.ok l ∧
          (∀ pd a, pyGet item2 "price" = some (PyVal.dict pd) → pyGet pd "amount" = some a →
            l.price = some (if pvIsNA a then "N/A" else pyStr a)) ∧
          (∀ mv, pyGet props2 "milage" = some mv →
            l.mileage = some (if pvIsNA mv then "N/A" else pyStr mv))) := by
  unfold normalize
  rw [hprops]
  refine ⟨_, rfl, ?_, ?_, ?_, ?_, ?_⟩
  · intro pd a h1 h2
    simp [h1, h2]
  · intro s h1
    by_cases hs : s = "N/A" <;> simp [h1, pvIsNA, pyStr, hs]
  · intro mv h
    simp [h]
  · intro yv h
    simp [h]
  · intro item2 props2 hp2
    unfold normalizeSearch
    rw [hp2]
    refine ⟨_, rfl, ?_, ?_⟩
    · intro pd a h1 h2
      simp [h1, h2]
    · intro mv h
      simp [h]

/-- C7 witness: the spec's scenario record — price is a mapping with
amount `"30000"` and the nested properties carry
`milage = "50.000 km"` while the top-level mileage reads `"1 km"` —
normalizes to price `"30000"` and mileage `"50.000 km"`. -/
theorem normalize_extraction_precedence_witness :
    ∃ d, normalize "https://u"
        [("price", PyVal.dict [("amount", PyVal.str "30000")]),
         ("mileage", PyVal.str "1 km"),
         ("properties", PyVal.dict [("milage", PyVal.str "50.000 km")])] = Except.ok d ∧
      d.price = "30000" ∧ d.mileage = "50.000 km" := by
  obtain ⟨d, hd, hpd, hps, hm, hy, hs⟩ := normalize_extraction_precedence "https://u"
    [("price", PyVal.dict [("amount", PyVal.str "30000")]),
     ("mileage", PyVal.str "1 km"),
     ("properties", PyVal.dict [("milage", PyVal.str "50.000 km")])]
    [("milage", PyVal.str "50.000 km")] rfl
  exact ⟨d, hd, by simpa [pvIsNA, pyStr] using hpd _ _ rfl rfl,
         by simpa [pvIsNA, pyStr] using hm _ rfl⟩

/-- A stored vehicle row whose url is the empty string, as
`save_vehicle_to_db` itself produces when the payload carries no url. -/
def emptyUrlRow : VehicleRow :=
  { id := 1, title := some "t", price := none, mileage := none, year := none,
    fuel := none, transmission := none, power := none, url := "", properties := none }

/-- C9 counterexample: a record whose (empty) url already exists in the
store does not get the existing identity back — the empty url skips the
existence check, the insert hits the `UNIQUE` constraint, and the
function returns `None` instead of the existing id 1. -/
theorem save_vehicle_upsert_counterexample :
    emptyUrlRow.url = "" ∧
    save_vehicle_to_db { rows := [emptyUrlRow], nextId := 2 }
        { title := some "t2", url := some "" } =
      ({ rows := [emptyUrlRow], nextId := 2 }, none) := by
  refine ⟨rfl, by decide⟩

/-- C9 amended: for a record with a non-empty url already present in the
store, `save_vehicle_to_db` returns the id of the (first) existing row
and leaves the table unchanged; and for any record, distinctness of the
stored urls is preserved (the `UNIQUE` constraint rejects a duplicate
insert), so no two stored vehicles ever share the same url. -/
theorem save_vehicle_upsert (db : VehiclesTable) (v : VehicleData) (r : VehicleRow) :
    (v.url.getD "" ≠ "" →
      db.rows.find? (fun row => row.url = v.url.getD "") = some r →
      save_vehicle_to_db db v = (db, some r.id)) ∧
    ((db.rows.map VehicleRow.url).Nodup →
      ((save_vehicle_to_db db v).1.rows.map VehicleRow.url).Nodup) := by
  constructor
  · intro hurl hfind
    unfold save_vehicle_to_db
    rw [if_pos hurl, hfind]
  · intro hnd
    unfold save_vehicle_to_db
    split
    · exact hnd
    · split
      · exact hnd
      · next hins =>
          simp only [List.map_append, List.map_cons, List.map_nil]
          simp only [Bool.or_eq_true, decide_eq_true_eq, not_or] at hins
          refine List.Nodup.append hnd (List.nodup_singleton _) ?_
          intro x hx hxu
          obtain ⟨row, hrow, hrowu⟩ := List.mem_map.1 hx
          rw [List.mem_singleton] at hxu
          subst hxu
          have : db.rows.any (fun row => row.url = v.url.getD "") = true :=
            List.any_eq_true.2 ⟨row, hrow, by simp [hrowu]⟩
          simp [this] at hins

/-- A stored vehicle row with a non-empty url. -/
def storedRow : VehicleRow :=
  { id := 7, title := some "Car", price := some "10000", mileage := none, year := none,
    fuel := none, transmission := none, power := none,
    url := "https://a.example/1", properties := none }

/-- C9 witness: saving a record whose url equals the stored row's url
returns the stored id 7 without changing the table, and url-distinctness
is preserved. -/
theorem save_vehicle_upsert_witness :
    save_vehicle_to_db { rows := [storedRow], nextId := 8 }
        { title := some "Car", url := some "https://a.example/1" } =
      ({ rows := [storedRow], nextId := 8 }, some 7) ∧
    (((save_vehicle_to_db { rows := [storedRow], nextId := 8 }
        { title := some "Car", url := some "https://a.example/1" }).1.rows.map
          VehicleRow.url)).Nodup :=
  ⟨(save_vehicle_upsert { rows := [storedRow], nextId := 8 }
      { title := some "Car", url := some "https://a.example/1" } storedRow).1
      (by decide) (by decide),
   (save_vehicle_upsert { rows := [storedRow], nextId := 8 }
      { title := some "Car", url := some "https://a.example/1" } storedRow).2
      (by simp [storedRow])⟩

end AvoccadoApp
